import Mathlib

/-!
Verification of the bathymetry-download demo script (`src/git_demo/main.py`).

The script holds a four-field bounding-box value (`DomainGeometry`), a thin
downloader wrapper whose single method opens a remote gridded dataset and
restricts it to the box by an inclusive label slice on the longitude and
latitude dimensions, and a `main` function that prints the dataset, plots the
"elevation" variable, and either shows the plot interactively or saves it to a
resolved output path.

The embedding below translates the script into pure Lean definitions:
coordinates are rationals, the remote dataset is a pair of coordinate lists
plus a variable list, the external library's inclusive label slice is a
filter, and the path helpers (`posixpath.join`, `posixpath.splitext`,
`posixpath.dirname`) follow CPython's implementations character by character.
The output-routing part of `main` is modelled both as a pure trace of effect
steps (for claims about which filesystem actions happen and in which order)
and as a fallible run over an abstract world of external operations (for the
error-propagation claim).
-/

namespace GitDemo

/-- The geographical description of a domain, as in the `DomainGeometry`
dataclass: four signed bounds in degrees.  The script stores them as Python
floats; all bounds the program ever constructs are decimal literals, so they
are embedded as rationals. -/
structure DomainGeometry where
  minimum_latitude : ℚ
  maximum_latitude : ℚ
  minimum_longitude : ℚ
  maximum_longitude : ℚ
deriving DecidableEq, Repr

/-- A mock of the remote gridded dataset: its longitude and latitude
coordinate values and the names of the variables it carries (the script reads
the one named "elevation"). -/
structure Dataset where
  longitude : List ℚ
  latitude : List ℚ
  data_vars : List String
deriving DecidableEq, Repr

/-- The inclusive label slice `sel(dim=slice(lo, hi))` that the external
array library applies on one coordinate dimension of an ascending index:
exactly the labels `x` with `lo ≤ x ≤ hi` are kept. -/
def selSlice (coords : List ℚ) (lo hi : ℚ) : List ℚ :=
  coords.filter (fun x => decide (lo ≤ x) && decide (x ≤ hi))

/-- The fixed remote endpoint `EMODnetBathymetryDownloader.URL`. -/
def URL : String :=
  "https://erddap.emodnet.eu/erddap/griddap/dtm_2020_v2_e0bf_e7e4_5b8f"

/-- The downloader wrapper: it stores the domain it was constructed with. -/
structure EMODnetBathymetryDownloader where
  _domain : DomainGeometry
deriving DecidableEq, Repr

/-- `EMODnetBathymetryDownloader.download_data`: open the remote dataset and
restrict it with an inclusive slice on the longitude dimension (minimum to
maximum longitude) and, independently, on the latitude dimension (minimum to
maximum latitude).  The already-opened remote dataset is passed explicitly;
the variable list is untouched by the coordinate selection. -/
def EMODnetBathymetryDownloader.download_data
    (d : EMODnetBathymetryDownloader) (remote : Dataset) : Dataset :=
  { longitude :=
      selSlice remote.longitude d._domain.minimum_longitude
        d._domain.maximum_longitude
    latitude :=
      selSlice remote.latitude d._domain.minimum_latitude
        d._domain.maximum_latitude
    data_vars := remote.data_vars }

/-- The domain `main` constructs from literal constants. -/
def mainDomain : DomainGeometry :=
  { minimum_latitude := 43.5
    maximum_latitude := 46.0
    minimum_longitude := 12.0
    maximum_longitude := 18.0 }

/-- Index of the last occurrence of `c` in the list, or `-1` when absent:
Python's `str.rfind` restricted to a single character. -/
def rfind : List Char → Char → Int
  | [], _ => -1
  | x :: xs, c =>
      let r := rfind xs c
      if r ≥ 0 then r + 1 else if x = c then 0 else -1

/-- `posixpath.join` for two components, as CPython implements it: an
absolute second component replaces the first; otherwise a separator is
inserted unless the first part is empty or already ends with one. -/
def pjoin (path b : String) : String :=
  if b.data.head? = some '/' then b
  else if path = "" || path.data.getLast? = some '/' then path ++ b
  else path ++ "/" ++ b

/-- `posixpath.splitext`, as CPython implements it: split at the last dot
that lies after the last separator, except that dots forming a prefix of the
final path component do not start an extension. -/
def splitext (p : String) : String × String :=
  let l := p.data
  let sepIndex := rfind l '/'
  let dotIndex := rfind l '.'
  if sepIndex < dotIndex then
    let between := List.drop (sepIndex + 1).toNat (List.take dotIndex.toNat l)
    if between.all (fun c => c == '.') then (p, "")
    else (String.mk (List.take dotIndex.toNat l),
          String.mk (List.drop dotIndex.toNat l))
  else (p, "")

/-- `posixpath.dirname`, as CPython implements it: everything up to and
including the last separator, then trailing separators are stripped unless
the head is empty or consists only of separators. -/
def dirname (p : String) : String :=
  let l := p.data
  let i := (rfind l '/' + 1).toNat
  let head := List.take i l
  if head.isEmpty || head.all (fun c => c == '/') then String.mk head
  else String.mk (List.reverse (List.dropWhile (fun c => c == '/') head.reverse))

/-- The filename resolution of `main` for a truthy `--output` value: an
existing directory gets the fixed default name joined inside it; any other
value is used verbatim, except that an empty extension draws a `.png`
default. -/
def resolveFilename (isdir : String → Bool) (out_path : String) : String :=
  if isdir out_path then pjoin out_path "bathymetry.png"
  else
    let filename := out_path
    if (splitext filename).2 = "" then filename ++ ".png" else filename

/-- The externally visible effect steps of the output-routing part of
`main`. -/
inductive Step where
  | makedirs (dir : String)
  | savefig (filename : String)
  | printMsg (msg : String)
  | showPlot
deriving DecidableEq, Repr

/-- The output routing of `main` (its final `if args.output:` block) as the
trace of effect steps it performs, in order.  A missing flag and an empty
string are both falsy in Python, so both take the interactive branch;
otherwise the filename is resolved, a nonempty parent directory is created
first, the figure is written, and a confirmation line is printed. -/
def outputRouting (isdir : String → Bool) (output : Option String) :
    List Step :=
  match output with
  | none => [Step.showPlot]
  | some out_path =>
      if out_path = "" then [Step.showPlot]
      else
        let filename := resolveFilename isdir out_path
        let parent := dirname filename
        (if parent = "" then [] else [Step.makedirs parent]) ++
          [Step.savefig filename,
           Step.printMsg ( "Saved plot to: " ++ filename)]

/-- A minimal filesystem state: the directories that exist and the files
that have been written. -/
structure FS where
  dirs : List String
  files : List String
deriving DecidableEq, Repr

/-- Interpret a trace of steps against the filesystem: `makedirs` makes the
directory (and, in the real call, every missing ancestor) exist, writing a
file demands that its parent directory exist, and the remaining steps do not
touch the filesystem.  A write into a missing directory is the
missing-directory fault. -/
def runSteps (fs : FS) : List Step → Except String FS
  | [] => Except.ok fs
  | Step.makedirs d :: rest => runSteps { fs with dirs := d :: fs.dirs } rest
  | Step.savefig f :: rest =>
      if dirname f = "" || fs.dirs.contains (dirname f) then
        runSteps { fs with files := f :: fs.files } rest
      else Except.error "missing-directory"
  | Step.printMsg _ :: rest => runSteps fs rest
  | Step.showPlot :: rest => runSteps fs rest

/-- The parsed command line: the optional `--output` / `-o` value. -/
structure Args where
  output : Option String
deriving DecidableEq, Repr

/-- The failure modes the spec enumerates for this program. -/
inductive XError where
  | network (msg : String)
  | malformedResponse (msg : String)
  | missingVariable (name : String)
  | writeFailure (path : String)
  | invalidPath (path : String)
deriving DecidableEq, Repr

/-- The external operations `main` invokes, each allowed to fail with an
error value that the program never inspects. -/
structure World where
  open_dataset : Except XError Dataset
  makedirs : String → Except XError Unit
  savefig : String → Except XError Unit
  isdir : String → Bool

/-- Reading `dataset[var_name]`: the external library raises a key error
when the named variable is absent. -/
def getVar (ds : Dataset) (name : String) : Except XError Unit :=
  if ds.data_vars.contains name then Except.ok ()
  else Except.error (XError.missingVariable name)

/-- The whole of `main` as a fallible computation over the world: fetch the
dataset through the downloader, read the "elevation" variable, and route the
output.  No step is wrapped in a handler, so the first failing operation
determines the result. -/
def mainRun (w : World) (args : Args) : Except XError Unit := do
  let remote ← w.open_dataset
  let dataset := (EMODnetBathymetryDownloader.mk mainDomain).download_data remote
  let _ ← getVar dataset "elevation"
  match args.output with
  | some out_path =>
      if out_path = "" then pure ()
      else do
        let filename := resolveFilename w.isdir out_path
        let parent := dirname filename
        if parent = "" then pure () else w.makedirs parent
        w.savefig filename
  | none => pure ()


/-! ## Helper lemmas about `rfind` -/

/-- A character that does not occur in the list has no last occurrence. -/
theorem rfind_not_mem {l : List Char} {c : Char} (h : c ∉ l) : rfind l c = -1 := by
  induction l with
  | nil => rfl
  | cons x xs ih =>
      have hx : ¬ x = c := by
        rintro rfl
        exact h (List.mem_cons_self _ _)
      have hxs : c ∉ xs := fun hm => h (List.mem_cons_of_mem _ hm)
      simp [rfind, ih hxs, hx]

/-- The last occurrence of `c` in `xs ++ c :: ys` is at index `xs.length`
when `c` does not occur in `ys`. -/
theorem rfind_cons (x : Char) (xs : List Char) (c : Char) :
    rfind (x :: xs) c =
      if rfind xs c ≥ 0 then rfind xs c + 1 else if x = c then 0 else -1 := rfl

theorem rfind_append_cons {c : Char} (xs : List Char) {ys : List Char}
    (h : c ∉ ys) : rfind (xs ++ c :: ys) c = xs.length := by
  induction xs with
  | nil => simp [rfind_cons, rfind_not_mem h]
  | cons x xs ih =>
      rw [List.cons_append, rfind_cons, ih,
        if_pos (show (xs.length : Int) ≥ 0 from Int.ofNat_nonneg _)]
      simp only [List.length_cons]
      push_cast
      ring

/-- When the final path component is a dot followed by characters containing
no further dot, `splitext` finds an empty extension: the leading dot of the
component is skipped by the leading-dot scan. -/
theorem splitext_leading_dot (front rest : List Char)
    (hfront : front = [] ∨ ∃ f, front = f ++ ['/'])
    (hs : '/' ∉ rest) (hd : '.' ∉ rest) :
    splitext (String.mk (front ++ '.' :: rest)) =
      (String.mk (front ++ '.' :: rest), "") := by
  have hdot : rfind (front ++ '.' :: rest) '.' = front.length :=
    rfind_append_cons front hd
  have hsep : rfind (front ++ '.' :: rest) '/' = (front.length : Int) - 1 := by
    rcases hfront with h | ⟨f, h⟩
    · subst h
      have hnm : '/' ∉ ('.' :: rest) := by
        intro hm
        rcases List.mem_cons.mp hm with h3 | h3
        · exact absurd h3 (by decide)
        · exact hs h3
      simp [rfind_not_mem hnm]
    · subst h
      have hnm : '/' ∉ ('.' :: rest) := by
        intro hm
        rcases List.mem_cons.mp hm with h3 | h3
        · exact absurd h3 (by decide)
        · exact hs h3
      have hr : rfind (f ++ '/' :: ('.' :: rest)) '/' = f.length :=
        rfind_append_cons f hnm
      rw [List.append_assoc]
      simp only [List.singleton_append, hr, List.length_append,
        List.length_singleton]
      push_cast
      ring
  unfold splitext
  simp only [hdot, hsep]
  rw [if_pos (by omega)]
  have hbetween :
      List.drop ((front.length : Int) - 1 + 1).toNat
        (List.take (front.length : Int).toNat (front ++ '.' :: rest)) = [] := by
    have h1 : ((front.length : Int) - 1 + 1).toNat = front.length := by omega
    have h2 : ((front.length : Int)).toNat = front.length := by omega
    rw [h1, h2, List.take_left, List.drop_length]
  rw [hbetween]
  rfl

/-- The last separator of a path whose tail past the last separator is
separator-free lies at index `front.length - 1` (so `-1` when the path has
no separator at all). -/
theorem rfind_sep (front tail : List Char)
    (hfront : front = [] ∨ ∃ f, front = f ++ ['/'])
    (h : '/' ∉ tail) :
    rfind (front ++ tail) '/' = (front.length : Int) - 1 := by
  rcases hfront with hf | ⟨f, hf⟩
  · subst hf
    rw [List.nil_append, rfind_not_mem h]
    norm_num
  · subst hf
    have hr : rfind (f ++ '/' :: tail) '/' = f.length := rfind_append_cons f h
    rw [List.append_assoc]
    simp only [List.singleton_append, hr, List.length_append,
      List.length_singleton]
    push_cast
    ring

/-- A path ending in a dot whose final component holds a non-dot character
before that dot splits at the final dot: the extension is exactly ".". -/
theorem splitext_dot_suffix (front comp : List Char)
    (hfront : front = [] ∨ ∃ f, front = f ++ ['/'])
    (hs : '/' ∉ comp) (hnd : ∃ c ∈ comp, c ≠ '.') :
    splitext (String.mk (front ++ comp ++ ['.'])) =
      (String.mk (front ++ comp), String.mk ['.']) := by
  have hdot : rfind ((front ++ comp) ++ '.' :: []) '.' =
      ((front ++ comp).length : Int) :=
    rfind_append_cons (front ++ comp) (by simp)
  have hsep : rfind ((front ++ comp) ++ ['.']) '/' =
      (front.length : Int) - 1 := by
    rw [List.append_assoc]
    refine rfind_sep front (comp ++ ['.']) hfront ?_
    intro hm
    rcases List.mem_append.mp hm with h3 | h3
    · exact hs h3
    · exact absurd (List.mem_singleton.mp h3) (by decide)
  have hfalse : comp.all (fun c => c == '.') = false := by
    rcases hnd with ⟨c, hc, hne⟩
    exact List.all_eq_false.mpr ⟨c, hc, by simpa using hne⟩
  unfold splitext
  simp only [hdot, hsep]
  rw [if_pos (by rw [List.length_append]; push_cast; omega)]
  have h1 : ((front.length : Int) - 1 + 1).toNat = front.length := by omega
  have h2 : (((front ++ comp).length : Int)).toNat = (front ++ comp).length :=
    by omega
  simp only [h1, h2, List.take_left, List.drop_left]
  rw [hfalse]
  simp

/-- A final path component consisting solely of dots yields an empty
extension: the leading-dot scan swallows the whole component. -/
theorem splitext_all_dots (front dots : List Char)
    (hfront : front = [] ∨ ∃ f, front = f ++ ['/'])
    (hne : dots ≠ []) (hall : ∀ c ∈ dots, c = '.') :
    splitext (String.mk (front ++ dots)) = (String.mk (front ++ dots), "") := by
  rcases List.eq_nil_or_concat dots with h | ⟨dots2, b, h⟩
  · exact absurd h hne
  subst h
  simp only [List.concat_eq_append] at hall
  have hb : b = '.' := hall b (by simp)
  subst hb
  simp only [List.concat_eq_append]
  rw [← List.append_assoc]
  have hdot : rfind ((front ++ dots2) ++ '.' :: []) '.' =
      ((front ++ dots2).length : Int) :=
    rfind_append_cons (front ++ dots2) (by simp)
  have hsep : rfind ((front ++ dots2) ++ ['.']) '/' =
      (front.length : Int) - 1 := by
    rw [List.append_assoc]
    refine rfind_sep front (dots2 ++ ['.']) hfront ?_
    intro hm
    exact absurd (hall '/' hm) (by decide)
  have htrue : dots2.all (fun c => c == '.') = true := by
    refine List.all_eq_true.mpr fun c hc => ?_
    have := hall c (List.mem_append.mpr (Or.inl hc))
    simp [this]
  unfold splitext
  simp only [hdot, hsep]
  rw [if_pos (by rw [List.length_append]; push_cast; omega)]
  have h1 : ((front.length : Int) - 1 + 1).toNat = front.length := by omega
  have h2 : (((front ++ dots2).length : Int)).toNat =
      (front ++ dots2).length := by omega
  simp only [h1, h2, List.take_left, List.drop_left]
  rw [htrue]
  simp

/-! ## Claim theorems -/

/-- C1: for every bounding box with minimum ≤ maximum on both axes, the
dataset returned by `download_data` contains only coordinate values within
the requested inclusive bounds on both dimensions, and it is obtained by
applying the inclusive range restriction independently on the longitude and
latitude dimensions. -/
theorem c1_download_data_within_bounds (domain : DomainGeometry)
    (remote : Dataset)
    (hlon : domain.minimum_longitude ≤ domain.maximum_longitude)
    (hlat : domain.minimum_latitude ≤ domain.maximum_latitude) :
    (∀ x ∈ ((EMODnetBathymetryDownloader.mk domain).download_data
        remote).longitude,
      domain.minimum_longitude ≤ x ∧ x ≤ domain.maximum_longitude) ∧
    (∀ y ∈ ((EMODnetBathymetryDownloader.mk domain).download_data
        remote).latitude,
      domain.minimum_latitude ≤ y ∧ y ≤ domain.maximum_latitude) ∧
    ((EMODnetBathymetryDownloader.mk domain).download_data remote).longitude
      = selSlice remote.longitude domain.minimum_longitude
          domain.maximum_longitude ∧
    ((EMODnetBathymetryDownloader.mk domain).download_data remote).latitude
      = selSlice remote.latitude domain.minimum_latitude
          domain.maximum_latitude := by
  refine ⟨?_, ?_, rfl, rfl⟩ <;> intro x hx <;>
    simp [EMODnetBathymetryDownloader.download_data, selSlice,
      List.mem_filter] at hx <;>
    exact ⟨hx.2.1, hx.2.2⟩

/-- Witness for C1 at a concrete box and mock dataset: the coordinate `0`
survives the slice of `[0, 2]` by the box `[0, 1]` and lies within it. -/
theorem c1_witness : (0 : ℚ) ≤ 0 ∧ (0 : ℚ) ≤ 1 :=
  (c1_download_data_within_bounds ⟨0, 1, 0, 1⟩ ⟨[0, 2], [0, 3], ["elevation"]⟩
    (by norm_num) (by norm_num)).1 0 (by decide)

/-- C2: when the `--output` value names an existing directory, the resolved
save path is that directory joined with the fixed default filename
"bathymetry.png", the run writes the figure there, and in particular the
hardcoded domain is {minLat 43.5, maxLat 46.0, minLon 12.0, maxLon 18.0} and
output "out/" (an existing directory) saves at "out/bathymetry.png". -/
theorem c2_directory_output_joins_default (isdir : String → Bool)
    (out : String) (hout : out ≠ "") (hdir : isdir out = true) :
    resolveFilename isdir out = pjoin out "bathymetry.png" ∧
    Step.savefig (pjoin out "bathymetry.png") ∈ outputRouting isdir (some out) ∧
    outputRouting (fun s => s == "out/") (some "out/") =
      [Step.makedirs "out", Step.savefig "out/bathymetry.png",
       Step.printMsg "Saved plot to: out/bathymetry.png"] ∧
    mainDomain = ⟨43.5, 46.0, 12.0, 18.0⟩ := by
  have hres : resolveFilename isdir out = pjoin out "bathymetry.png" := by
    simp [resolveFilename, hdir]
  refine ⟨hres, ?_, by decide, rfl⟩
  simp only [outputRouting, if_neg hout, hres]
  by_cases hp : dirname (pjoin out "bathymetry.png") = "" <;> simp [hp]

/-- Witness for C2 with the existing directory "out/". -/
theorem c2_witness :
    resolveFilename (fun s => s == "out/") "out/" =
      pjoin "out/" "bathymetry.png" :=
  (c2_directory_output_joins_default (fun s => s == "out/") "out/"
    (by decide) (by decide)).1

/-- C3: when the `--output` value does not name an existing directory, it is
used verbatim as the save filename except that an empty extension (as
computed by `splitext`) draws the default ".png"; "result" resolves to
"result.png" and "plot.jpg" is used unchanged. -/
theorem c3_verbatim_with_default_extension (isdir : String → Bool)
    (out : String) (hout : out ≠ "") (hdir : isdir out = false) :
    resolveFilename isdir out =
      (if (splitext out).2 = "" then out ++ ".png" else out) ∧
    Step.savefig (resolveFilename isdir out) ∈ outputRouting isdir (some out) ∧
    resolveFilename (fun _ => false) "result" = "result.png" ∧
    resolveFilename (fun _ => false) "plot.jpg" = "plot.jpg" := by
  refine ⟨by simp [resolveFilename, hdir], ?_, by decide, by decide⟩
  simp only [outputRouting, if_neg hout]
  by_cases hp : dirname (resolveFilename isdir out) = "" <;> simp [hp]

/-- Witness for C3 at the extensionless output "result". -/
theorem c3_witness :
    resolveFilename (fun _ => false) "result" =
      (if (splitext "result").2 = "" then "result" ++ ".png" else "result") :=
  (c3_verbatim_with_default_extension (fun _ => false) "result"
    (by decide) rfl).1

/-- C4: with no `--output` flag the program takes the interactive-display
branch and performs no filesystem writes and no directory creation: the
trace is exactly the blocking show step and leaves any filesystem state
untouched. -/
theorem c4_no_output_shows_interactively (isdir : String → Bool) (fs : FS) :
    outputRouting isdir none = [Step.showPlot] ∧
    runSteps fs (outputRouting isdir none) = Except.ok fs :=
  ⟨rfl, rfl⟩

/-- C5: whenever the resolved filename has a nonempty parent directory
component, the save trace creates it before the figure is written, and
interpreting the trace against any filesystem state — in particular one where
that parent does not exist — succeeds with the file written: the write never
hits a missing-directory fault. -/
theorem c5_parent_created_before_write (fs : FS) (isdir : String → Bool)
    (out : String) (hout : out ≠ "")
    (hparent : dirname (resolveFilename isdir out) ≠ "") :
    outputRouting isdir (some out) =
      [Step.makedirs (dirname (resolveFilename isdir out)),
       Step.savefig (resolveFilename isdir out),
       Step.printMsg ( "Saved plot to: " ++ resolveFilename isdir out)] ∧
    runSteps fs (outputRouting isdir (some out)) =
      Except.ok { dirs := dirname (resolveFilename isdir out) :: fs.dirs,
                  files := resolveFilename isdir out :: fs.files } := by
  have htrace : outputRouting isdir (some out) =
      [Step.makedirs (dirname (resolveFilename isdir out)),
       Step.savefig (resolveFilename isdir out),
       Step.printMsg ( "Saved plot to: " ++ resolveFilename isdir out)] := by
    simp [outputRouting, if_neg hout, if_neg hparent]
  refine ⟨htrace, ?_⟩
  rw [htrace]
  simp [runSteps]

/-- Witness for C5: output "out/" with "out/" an existing directory, starting
from an empty filesystem where the parent "out" does not exist. -/
theorem c5_witness :
    outputRouting (fun s => s == "out/") (some "out/") =
      [Step.makedirs (dirname (resolveFilename (fun s => s == "out/") "out/")),
       Step.savefig (resolveFilename (fun s => s == "out/") "out/"),
       Step.printMsg ( "Saved plot to: " ++
         resolveFilename (fun s => s == "out/") "out/")] :=
  (c5_parent_created_before_write ⟨[], []⟩ (fun s => s == "out/") "out/"
    (by decide) (by decide)).1

/-- C8: every run that saves the figure ends its trace with the write
followed immediately by a printed confirmation line naming the resolved save
path. -/
theorem c8_confirmation_after_save (isdir : String → Bool) (out : String)
    (hout : out ≠ "") :
    ∃ k, List.drop k (outputRouting isdir (some out)) =
      [Step.savefig (resolveFilename isdir out),
       Step.printMsg ( "Saved plot to: " ++ resolveFilename isdir out)] := by
  simp only [outputRouting, if_neg hout]
  by_cases hp : dirname (resolveFilename isdir out) = ""
  · exact ⟨0, by simp [hp]⟩
  · exact ⟨1, by simp [hp]⟩

/-- Witness for C8 at the concrete output "result". -/
theorem c8_witness :
    ∃ k, List.drop k (outputRouting (fun _ => false) (some "result")) =
      [Step.savefig (resolveFilename (fun _ => false) "result"),
       Step.printMsg ( "Saved plot to: " ++
         resolveFilename (fun _ => false) "result")] :=
  c8_confirmation_after_save (fun _ => false) "result" (by decide)

/-- C9: an `--output` flag carrying the empty string is falsy in Python, so
the program takes the interactive-display branch exactly as when the flag is
absent. -/
theorem c9_empty_output_shows_interactively (isdir : String → Bool) :
    outputRouting isdir (some "") = [Step.showPlot] ∧
    outputRouting isdir (some "") = outputRouting isdir none :=
  ⟨rfl, rfl⟩

/-- C6: the domain is constructed once from the literal bounds, the
downloader holds exactly that value, and the only operation that reads the
domain — the fetch-and-slice — observes precisely the bounds it was
constructed with, for every remote dataset; no operation of the program
mutates a constructed domain. -/
theorem c6_domain_observed_as_constructed :
    mainDomain = ⟨43.5, 46.0, 12.0, 18.0⟩ ∧
    (EMODnetBathymetryDownloader.mk mainDomain)._domain = mainDomain ∧
    ∀ remote : Dataset,
      (EMODnetBathymetryDownloader.mk mainDomain).download_data remote =
        { longitude := selSlice remote.longitude mainDomain.minimum_longitude
            mainDomain.maximum_longitude,
          latitude := selSlice remote.latitude mainDomain.minimum_latitude
            mainDomain.maximum_latitude,
          data_vars := remote.data_vars } :=
  ⟨rfl, rfl, fun _ => rfl⟩

theorem except_bind_ok {e a b : Type} (x : a) (f : a → Except e b) :
    (Except.ok x >>= f) = f x := rfl

theorem except_bind_error {e a b : Type} (x : e) (f : a → Except e b) :
    ((Except.error x : Except e a) >>= f) = Except.error x := rfl

/-- C7: no operation of `main` or `download_data` is wrapped in a handler,
so whichever external operation fails first — opening the remote dataset,
reading the "elevation" variable, creating the parent directory, or writing
the figure — its error value becomes the unmodified result of the whole
run. -/
theorem c7_errors_propagate_uncaught (w : World) (args : Args) (e : XError) :
    (w.open_dataset = Except.error e → mainRun w args = Except.error e) ∧
    (∀ remote, w.open_dataset = Except.ok remote →
      "elevation" ∉ remote.data_vars →
      mainRun w args = Except.error (XError.missingVariable "elevation")) ∧
    (∀ remote out, w.open_dataset = Except.ok remote →
      "elevation" ∈ remote.data_vars →
      args.output = some out → out ≠ "" →
      dirname (resolveFilename w.isdir out) ≠ "" →
      w.makedirs (dirname (resolveFilename w.isdir out)) = Except.error e →
      mainRun w args = Except.error e) ∧
    (∀ remote out, w.open_dataset = Except.ok remote →
      "elevation" ∈ remote.data_vars →
      args.output = some out → out ≠ "" →
      (dirname (resolveFilename w.isdir out) = "" ∨
        w.makedirs (dirname (resolveFilename w.isdir out)) = Except.ok ()) →
      w.savefig (resolveFilename w.isdir out) = Except.error e →
      mainRun w args = Except.error e) := by
  refine ⟨?_, ?_, ?_, ?_⟩
  · intro h
    simp [mainRun, h, except_bind_error]
  · intro remote h hvar
    simp [mainRun, h, getVar, EMODnetBathymetryDownloader.download_data,
      hvar, except_bind_ok, except_bind_error]
  · intro remote out h hvar hout hne hp hmk
    simp [mainRun, h, getVar, EMODnetBathymetryDownloader.download_data,
      hvar, hout, hne, hp, hmk, except_bind_ok, except_bind_error]
  · intro remote out h hvar hout hne hp hsv
    rcases hp with hp | hp <;>
      simp [mainRun, h, getVar, EMODnetBathymetryDownloader.download_data,
        hvar, hout, hne, hp, hsv, except_bind_ok, except_bind_error]

/-- Witness for C7: a world whose remote open fails with a network error
makes the whole run fail with exactly that error. -/
theorem c7_witness :
    mainRun
      { open_dataset := Except.error (XError.network "unreachable"),
        makedirs := fun _ => Except.ok (),
        savefig := fun _ => Except.ok (),
        isdir := fun _ => false }
      { output := none } = Except.error (XError.network "unreachable") :=
  (c7_errors_propagate_uncaught _ _ _).1 rfl

/-- C10 counterexample: the output value ".." ends in a bare dot and does
not name an existing directory, yet the program does not use it unchanged:
`splitext` treats the dots forming a prefix of the final component as no
extension, so ".png" is appended. -/
theorem c10_counterexample :
    resolveFilename (fun _ => false) ".." = "...png" ∧
    resolveFilename (fun _ => false) ".." ≠ ".." :=
  ⟨by decide, by decide⟩

/-- C10 amended: for every output value that does not name an existing
directory — (i) a final path component that is a single leading dot with no
later dot is treated as having no extension and ".png" is appended; (ii) a
value ending in a bare dot is used unchanged when its final path component
contains a non-dot character before that final dot; (iii) a final component
consisting solely of dots is treated as having no extension and gets ".png"
appended; concretely ".hidden" resolves to ".hidden.png", "result." stays
"result.", and ".." resolves to "...png". -/
theorem c10_leading_dot_extension_rules :
    (∀ (isdir : String → Bool) (front rest : List Char),
      (front = [] ∨ ∃ f, front = f ++ ['/']) → '/' ∉ rest → '.' ∉ rest →
      isdir (String.mk (front ++ '.' :: rest)) = false →
      resolveFilename isdir (String.mk (front ++ '.' :: rest)) =
        String.mk (front ++ '.' :: rest) ++ ".png") ∧
    (∀ (isdir : String → Bool) (front comp : List Char),
      (front = [] ∨ ∃ f, front = f ++ ['/']) → '/' ∉ comp →
      (∃ c ∈ comp, c ≠ '.') →
      isdir (String.mk (front ++ comp ++ ['.'])) = false →
      resolveFilename isdir (String.mk (front ++ comp ++ ['.'])) =
        String.mk (front ++ comp ++ ['.'])) ∧
    (∀ (isdir : String → Bool) (front dots : List Char),
      (front = [] ∨ ∃ f, front = f ++ ['/']) → dots ≠ [] →
      (∀ c ∈ dots, c = '.') →
      isdir (String.mk (front ++ dots)) = false →
      resolveFilename isdir (String.mk (front ++ dots)) =
        String.mk (front ++ dots) ++ ".png") ∧
    resolveFilename (fun _ => false) ".hidden" = ".hidden.png" ∧
    resolveFilename (fun _ => false) "result." = "result." ∧
    resolveFilename (fun _ => false) ".." = "...png" := by
  refine ⟨?_, ?_, ?_, by decide, by decide, by decide⟩
  · intro isdir front rest hfront hs hd hdir
    have hsplit := splitext_leading_dot front rest hfront hs hd
    simp [resolveFilename, hdir, hsplit]
  · intro isdir front comp hfront hs hnd hdir
    have hsplit := splitext_dot_suffix front comp hfront hs hnd
    have hne2 : (String.mk ['.'] : String) ≠ "" := by decide
    rw [List.append_assoc] at hsplit hdir
    simp [resolveFilename, hdir, hsplit, hne2]
  · intro isdir front dots hfront hne hall hdir
    have hsplit := splitext_all_dots front dots hfront hne hall
    simp [resolveFilename, hdir, hsplit]

/-- Witness for C10's amended rules at the concrete outputs ".hidden" (a
leading-dot component), "result." (a bare dot after a non-dot character),
and ".." (an all-dots component). -/
theorem c10_witness :
    resolveFilename (fun _ => false)
      (String.mk ([] ++ '.' :: ['h', 'i', 'd', 'd', 'e', 'n'])) =
      String.mk ([] ++ '.' :: ['h', 'i', 'd', 'd', 'e', 'n']) ++ ".png" ∧
    resolveFilename (fun _ => false)
      (String.mk ([] ++ ['r', 'e', 's', 'u', 'l', 't'] ++ ['.'])) =
      String.mk ([] ++ ['r', 'e', 's', 'u', 'l', 't'] ++ ['.']) ∧
    resolveFilename (fun _ => false) (String.mk ([] ++ ['.', '.'])) =
      String.mk ([] ++ ['.', '.']) ++ ".png" :=
  ⟨(c10_leading_dot_extension_rules).1 (fun _ => false) []
      ['h', 'i', 'd', 'd', 'e', 'n'] (Or.inl rfl) (by decide) (by decide) rfl,
   (c10_leading_dot_extension_rules).2.1 (fun _ => false) []
      ['r', 'e', 's', 'u', 'l', 't'] (Or.inl rfl) (by decide)
      ⟨'r', by decide, by decide⟩ rfl,
   (c10_leading_dot_extension_rules).2.2.1 (fun _ => false) [] ['.', '.']
      (Or.inl rfl) (by decide) (by decide) rfl⟩

end GitDemo
